import Mathlib

/-!
Verification of the Pulse AI synthesis core: a shallow embedding of the
deterministic aggregation pipeline (impact scorer, signal filter, focus-area
clusterer, differential trend engine and the orchestrator's trend tagging)
together with proofs of the specified properties.

Numbers are modelled as exact rationals.  JavaScript's falsy-coalescing
operator on optional numbers and strings is modelled by the explicit helpers
below, and JavaScript's single-precision date arithmetic is abstracted to a
rational millisecond clock passed in as a parameter.
-/

namespace Pulse

/-- JS `x || d` on an optional number: `undefined` and `0` both fall back. -/
def jsOrQ (x : Option ℚ) (d : ℚ) : ℚ :=
  match x with
  | some v => if v = 0 then d else v
  | none => d

/-- JS `x || d` on an optional string: `undefined` and `""` both fall back. -/
def jsOrS (x : Option String) (d : String) : String :=
  match x with
  | some s => if s = "" then d else s
  | none => d

/-- JS `x || d` on an optional natural number (used for lengths). -/
def jsOrN (x : Option ℕ) (d : ℕ) : ℕ :=
  match x with
  | some n => if n = 0 then d else n
  | none => d

/-- JS `Math.round`: floor of `x + 1/2`. -/
def jsRound (x : ℚ) : ℤ := ⌊x + 1 / 2⌋

/-- `Math.round(x * 10) / 10`: round to one decimal place. -/
def round1 (x : ℚ) : ℚ := (jsRound (x * 10) : ℚ) / 10

/-- Rendering of a rational for embedded report strings (display only). -/
def numStr (x : ℚ) : String :=
  if x.den = 1 then toString x.num else toString x.num ++ "/" ++ toString x.den

/-! ## Data model (`ClassifiedItem` and its metadata records) -/

structure ProblemMetadata where
  impactScore : Option ℚ
  featureArea : Option String
  userSegmentGuess : Option String
deriving DecidableEq

structure DelightMetadata where
  shareability : Option ℚ
  ahaMonent : Option String
deriving DecidableEq

structure ItemSummary where
  keyQuote : Option String
deriving DecidableEq

structure Item where
  sourceId : String
  itype : String
  category : String
  upvotes : Option ℚ
  score : Option ℚ
  numComments : Option ℚ
  createdAt : Option ℚ
  body : Option String
  content : Option String
  title : Option String
  duplicateCount : Option ℚ
  problemMetadata : Option ProblemMetadata
  delightMetadata : Option DelightMetadata
  summary : Option ItemSummary
deriving DecidableEq

structure Stakes where
  stype : String
  message : String
deriving DecidableEq

structure BreakdownEntry where
  value : ℚ
  weight : ℚ
deriving DecidableEq

structure Breakdown where
  reach : BreakdownEntry
  sentiment : BreakdownEntry
  velocity : BreakdownEntry
deriving DecidableEq

structure ImpactData where
  score : ℚ
  maxScore : ℚ
  breakdown : Breakdown
  rationale : String
  stakes : Stakes
deriving DecidableEq

/-! ## Impact scorer (`calculateImpactScore` and its helper generators) -/

/-- `generateScoreRationale` from the synthesizer. -/
def generateScoreRationale (reach sentiment velocity : ℚ) (item : Item) : String :=
  let parts : List String :=
    (if reach ≥ 7 then
      ["high visibility (" ++ numStr (jsOrQ item.upvotes 0) ++ " upvotes)"]
     else if reach ≥ 4 then ["moderate reach"] else []) ++
    (if sentiment ≥ 8 then ["strong sentiment intensity"] else []) ++
    (if velocity ≥ 6 then ["rapid engagement growth"] else []) ++
    (let duplicates := jsOrQ item.duplicateCount 0
     if duplicates > 5 then [numStr duplicates ++ "+ similar reports"] else [])
  if parts.length > 0 then
    "Score reflects " ++ String.intercalate ", " parts ++ "."
  else
    "Score based on standard engagement metrics."

/-- `generateStakes` from the synthesizer. -/
def generateStakes (item : Item) (score : ℚ) : Stakes :=
  if item.itype = "Constructive" then
    if score ≥ 7 then
      { stype := "risk"
        message := "Risk if ignored: Potential churn of " ++
          jsOrS (item.problemMetadata.bind ProblemMetadata.userSegmentGuess)
            "affected users" ++ ", negative word-of-mouth amplification." }
    else
      { stype := "risk"
        message :=
          "Risk if ignored: Continued user frustration, possible support ticket increase." }
  else if item.itype = "Praise" then
    { stype := "upside"
      message :=
        "Upside if amplified: Social proof for marketing, potential case study opportunity." }
  else
    { stype := "neutral", message := "Monitor for changes in sentiment or frequency." }

/--
`calculateImpactScore(item, totalItems)`.  `now` is the millisecond clock
(`Date.now()`), `totalItems` is accepted but unused, exactly as in the source.
-/
def calculateImpactScore (now : ℚ) (item : Item) (totalItems : ℕ) : ImpactData :=
  let upvotes := jsOrQ item.upvotes (jsOrQ item.score 0)
  let comments := jsOrQ item.numComments 0
  let reach := min 10 ((upvotes + comments * 2) / 20)
  let sentiment : ℚ :=
    if item.itype = "Constructive" then
      jsOrQ (item.problemMetadata.bind ProblemMetadata.impactScore) 7
    else if item.itype = "Praise" then
      jsOrQ (item.delightMetadata.bind DelightMetadata.shareability) 7
    else 5
  let createdAt := match item.createdAt with | some t => t | none => now
  let ageInHours := max 1 ((now - createdAt) / (1000 * 60 * 60))
  let engagementPerHour := (upvotes + comments) / ageInHours
  let velocity := min 10 (engagementPerHour * 2)
  let score := reach * 0.4 + sentiment * 0.3 + velocity * 0.3
  let normalizedScore := round1 score
  { score := normalizedScore
    maxScore := 10
    breakdown :=
      { reach := { value := round1 reach, weight := 0.4 }
        sentiment := { value := round1 sentiment, weight := 0.3 }
        velocity := { value := round1 velocity, weight := 0.3 } }
    rationale := generateScoreRationale reach sentiment velocity item
    stakes := generateStakes item normalizedScore }

/-! ## Signal filter (`calculateSignalScore`, `filterSignalFromNoise`) -/

/-- `calculateSignalScore` from the synthesizer. -/
def calculateSignalScore (item : Item) : ℚ :=
  let score : ℚ := 0.5
  let score := if item.itype = "Constructive" then score + 0.2 else score
  let score := if item.itype = "Praise" then score + 0.1 else score
  let bodyLength :=
    jsOrN (item.body.map String.length) (jsOrN (item.content.map String.length) 0)
  let score := if bodyLength > 200 then score + 0.1 else score
  let score := if bodyLength > 500 then score + 0.1 else score
  let upvotes := jsOrQ item.upvotes (jsOrQ item.score 0)
  let score := if upvotes > 10 then score + 0.05 else score
  let score := if upvotes > 50 then score + 0.1 else score
  let score := if upvotes > 100 then score + 0.1 else score
  let score :=
    match item.problemMetadata with
    | some pm =>
      let score := score + 0.1
      match pm.impactScore with
      | some v => if v ≥ 7 then score + 0.1 else score
      | none => score
    | none => score
  let score := if item.category = "Rant/Opinion" then score - 0.2 else score
  let score := if bodyLength < 50 then score - 0.2 else score
  max 0 (min 1 score)

/--
A scored item as pushed by `filterSignalFromNoise`: the spread of the source
item plus `signalScore`, and `impactData` only when the push added it.
-/
structure SItem where
  item : Item
  signalScore : ℚ
  impactData : Option ImpactData
deriving DecidableEq

/-- Sort key used by `highSignal.sort((a, b) => b.impactData.score - a.impactData.score)`. -/
def sKey (e : SItem) : ℚ := (e.impactData.map ImpactData.score).getD 0

/-- Descending order on impact score, the comparator of the `highSignal` sort. -/
def impactDesc (a b : SItem) : Prop := sKey b ≤ sKey a

instance : DecidableRel impactDesc := fun a b =>
  inferInstanceAs (Decidable (sKey b ≤ sKey a))

instance : IsTotal SItem impactDesc := ⟨fun a b => le_total (sKey b) (sKey a)⟩

instance : IsTrans SItem impactDesc := ⟨fun _ _ _ h1 h2 => le_trans h2 h1⟩

structure SignalData where
  highSignal : List SItem
  noise : List SItem
deriving DecidableEq

/--
`filterSignalFromNoise(analyzedItems)`: each item is scored, bucketed by
`signalScore >= 0.5`, and `highSignal` is sorted descending by impact score.
Noise pushes spread only the item and its signal score.
-/
def filterSignalFromNoise (now : ℚ) (analyzedItems : List Item) : SignalData :=
  let highSignal := analyzedItems.filterMap fun item =>
    let signalScore := calculateSignalScore item
    if signalScore ≥ 0.5 then
      some { item := item, signalScore := signalScore
             impactData := some (calculateImpactScore now item analyzedItems.length) }
    else none
  let noise := analyzedItems.filterMap fun item =>
    let signalScore := calculateSignalScore item
    if signalScore ≥ 0.5 then none
    else some { item := item, signalScore := signalScore, impactData := none }
  { highSignal := List.insertionSort impactDesc highSignal, noise := noise }

/-! ## Focus-area clusterer (`clusterIntoFocusAreas`) -/

/--
The cluster category mapping inside `clusterIntoFocusAreas`:
`usability_friction` default, then the `if`/`else if` chain on
`item.category` and finally on `item.type`.
-/
def clusterCategory (item : Item) : String :=
  if item.category = "Feature Request" then "feature_request"
  else if item.category = "Bug" then "bug"
  else if item.itype = "Praise" then "praise"
  else "usability_friction"

/-- `problemMetadata?.featureArea || delightMetadata?.ahaMonent || 'General'`. -/
def featureAreaOf (e : SItem) : String :=
  jsOrS (e.item.problemMetadata.bind ProblemMetadata.featureArea)
    (jsOrS (e.item.delightMetadata.bind DelightMetadata.ahaMonent) "General")

/-- The grouping key template string `category:featureArea`. -/
def clusterKey (e : SItem) : String := clusterCategory e.item ++ ":" ++ featureAreaOf e

/-- The quote collected by `if (item.summary?.keyQuote) quotes.push(...)`. -/
def quoteOf (e : SItem) : Option String :=
  match e.item.summary.bind ItemSummary.keyQuote with
  | some q => if q = "" then none else some q
  | none => none

/-- The segment collected by `if (item.problemMetadata?.userSegmentGuess) segments.add(...)`. -/
def segOf (e : SItem) : Option String :=
  match e.item.problemMetadata.bind ProblemMetadata.userSegmentGuess with
  | some s => if s = "" then none else some s
  | none => none

/-- `item.impactData?.score || 0`, the per-item contribution to `totalScore`. -/
def iscore (e : SItem) : ℚ := jsOrQ (e.impactData.map ImpactData.score) 0

/-- JS `Set.add`: insertion-ordered, duplicates ignored. -/
def addSeg (l : List String) (s : String) : List String :=
  if s ∈ l then l else l ++ [s]

/-- The mutable accumulator record `areas[key]` of the clusterer. -/
structure Group where
  id : String
  title : String
  category : String
  items : List SItem
  totalScore : ℚ
  quotes : List String
  segments : List String
deriving DecidableEq

/-- One loop iteration's mutations of the group an item lands in. -/
def updateGroup (g : Group) (e : SItem) : Group :=
  { g with
    items := g.items ++ [e]
    totalScore := g.totalScore + iscore e
    quotes := g.quotes ++ (quoteOf e).toList
    segments :=
      match segOf e with
      | some s => addSeg g.segments s
      | none => g.segments }

/-- The freshly created `areas[key]` record, before the item is pushed. -/
def newGroup (e : SItem) : Group :=
  { id := clusterKey e, title := featureAreaOf e, category := clusterCategory e.item
    items := [], totalScore := 0, quotes := [], segments := [] }

/--
Processing one item against the insertion-ordered table of groups: update the
group with the item's key, or append a new group for an unseen key.
-/
def addItem (gs : List Group) (e : SItem) : List Group :=
  match gs with
  | [] => [updateGroup (newGroup e) e]
  | g :: rest =>
    if g.id = clusterKey e then updateGroup g e :: rest else g :: addItem rest e

/-- A focus area: the spread of a group plus the computed aggregates. -/
structure Area where
  id : String
  title : String
  category : String
  items : List SItem
  totalScore : ℚ
  quotes : List String
  segments : List String
  frequency : ℕ
  avgImpact : ℚ
  topQuote : String
  affectedSegments : List String
  stakes : Stakes
  scoreRationale : String
deriving DecidableEq

/-- The aggregation `map` at the end of `clusterIntoFocusAreas`. -/
def aggregate (g : Group) : Area :=
  { id := g.id, title := g.title, category := g.category, items := g.items
    totalScore := g.totalScore, quotes := g.quotes, segments := g.segments
    frequency := g.items.length
    avgImpact := if g.items.length > 0 then g.totalScore / g.items.length else 0
    topQuote := jsOrS g.quotes.head? ""
    affectedSegments := g.segments
    stakes :=
      ((g.items.head?.bind SItem.impactData).map ImpactData.stakes).getD
        { stype := "neutral", message := "" }
    scoreRationale :=
      jsOrS ((g.items.head?.bind SItem.impactData).map ImpactData.rationale) "" }

/-- Descending order on `avgImpact`, the comparator of the final sort. -/
def avgDesc (a b : Area) : Prop := b.avgImpact ≤ a.avgImpact

instance : DecidableRel avgDesc := fun a b =>
  inferInstanceAs (Decidable (b.avgImpact ≤ a.avgImpact))

instance : IsTotal Area avgDesc := ⟨fun a b => le_total b.avgImpact a.avgImpact⟩

instance : IsTrans Area avgDesc := ⟨fun _ _ _ h1 h2 => le_trans h2 h1⟩

/-- `clusterIntoFocusAreas(items)`: group, aggregate, sort descending by `avgImpact`. -/
def clusterIntoFocusAreas (items : List SItem) : List Area :=
  List.insertionSort avgDesc ((items.foldl addItem []).map aggregate)

/-! ## Differential trend engine (`compareSyntheses` and helpers) -/

/-- A focus area as persisted in a snapshot / consumed by the diff engine. -/
structure SnapArea where
  title : String
  category : String
  frequency : ℚ
  impactScore : Option ℚ
  severityLabel : Option String
deriving DecidableEq

/-- The Map key template string `category:title`. -/
def keyStr (fa : SnapArea) : String := fa.category ++ ":" ++ fa.title

/-- JS `Map.set` on an association list: update in place, else append. -/
def mapInsert (m : List (String × SnapArea)) (k : String) (v : SnapArea) :
    List (String × SnapArea) :=
  match m with
  | [] => [(k, v)]
  | (k1, v1) :: rest =>
    if k1 = k then (k, v) :: rest else (k1, v1) :: mapInsert rest k v

/-- `new Map(focusAreas.map(fa => [key(fa), fa]))`. -/
def mapFromAreas (l : List SnapArea) : List (String × SnapArea) :=
  l.foldl (fun m fa => mapInsert m (keyStr fa) fa) []

/-- JS `Map.get`. -/
def alookup (m : List (String × SnapArea)) (k : String) : Option SnapArea :=
  match m with
  | [] => none
  | (k1, v) :: rest => if k1 = k then some v else alookup rest k

/-- JS `'str'.replace('_', ' ')`: replaces only the first underscore. -/
def underscoreToSpace (s : String) : String :=
  match s.splitOn "_" with
  | [] => s
  | [x] => x
  | x :: y :: rest => x ++ " " ++ String.intercalate "_" (y :: rest)

/-- A focus area annotated as pushed into one of the comparison buckets. -/
structure BucketEntry where
  area : SnapArea
  changeType : String
  previousFrequency : Option ℚ
  frequencyDelta : Option ℚ
  impactDelta : Option ℚ
  insight : Option String
deriving DecidableEq

/--
The body of the per-current-area loop of `compareSyntheses`: classify one
current area against the previous-areas map.
-/
def toEntry (mprev : List (String × SnapArea)) (a : SnapArea) : BucketEntry :=
  match alookup mprev (keyStr a) with
  | none =>
    { area := a, changeType := "new"
      previousFrequency := none, frequencyDelta := none, impactDelta := none
      insight := some ("New " ++ underscoreToSpace a.category ++ " detected: \"" ++
        a.title ++ "\"") }
  | some p =>
    let freqDelta := a.frequency - p.frequency
    let impactDelta := a.impactScore.getD 0 - p.impactScore.getD 0
    if freqDelta < -2 ∨ impactDelta < -1 then
      { area := a, changeType := "improved"
        previousFrequency := some p.frequency, frequencyDelta := some freqDelta
        impactDelta := some impactDelta
        insight := some ("\"" ++ a.title ++ "\" has improved: " ++
          numStr |freqDelta| ++ " fewer mentions") }
    else if freqDelta > 2 ∨ impactDelta > 1 then
      { area := a, changeType := "worsened"
        previousFrequency := some p.frequency, frequencyDelta := some freqDelta
        impactDelta := some impactDelta
        insight := some ("\"" ++ a.title ++ "\" is growing: +" ++
          numStr freqDelta ++ " more mentions") }
    else
      { area := a, changeType := "stable"
        previousFrequency := some p.frequency, frequencyDelta := some freqDelta
        impactDelta := some impactDelta, insight := none }

/-- The resolved-issue record pushed for a previous area missing from current. -/
def toResolved (p : SnapArea) : BucketEntry :=
  { area := p, changeType := "resolved"
    previousFrequency := none, frequencyDelta := none, impactDelta := none
    insight := some ("\"" ++ p.title ++ "\" no longer appearing in feedback") }

/-- The five comparison buckets. -/
structure Changes where
  newIssues : List BucketEntry
  improvedIssues : List BucketEntry
  worsenedIssues : List BucketEntry
  resolvedIssues : List BucketEntry
  stableIssues : List BucketEntry
deriving DecidableEq

/-- The two loops of `compareSyntheses` that fill the five buckets. -/
def buildChanges (cur prev : List SnapArea) : Changes :=
  let mcur := mapFromAreas cur
  let mprev := mapFromAreas prev
  let entries := (mcur.map Prod.snd).map (toEntry mprev)
  { newIssues := entries.filter fun e => e.changeType = "new"
    improvedIssues := entries.filter fun e => e.changeType = "improved"
    worsenedIssues := entries.filter fun e => e.changeType = "worsened"
    stableIssues := entries.filter fun e => e.changeType = "stable"
    resolvedIssues :=
      ((mprev.map Prod.snd).filter fun p => alookup mcur (keyStr p) = none).map
        toResolved }

structure Sentiment where
  positive : ℚ
  neutral : ℚ
  negative : ℚ
  mood : String
deriving DecidableEq

structure SentTrend where
  current : Sentiment
  previous : Sentiment
  delta : ℤ
  direction : String
  moodChange : Bool
deriving DecidableEq

structure VolTrend where
  current : ℚ
  previous : ℚ
  delta : ℚ
  direction : String
deriving DecidableEq

structure Trends where
  sentiment : Option SentTrend
  volume : VolTrend
  resolutionRate : ℤ
  newIssueRate : ℤ
  overallHealth : ℤ
deriving DecidableEq

structure MetaInfo where
  totalAnalyzed : Option ℚ
deriving DecidableEq

/-- The synthesis-or-snapshot record consumed by the diff engine. -/
structure Synthesis where
  focusAreas : List SnapArea
  sentiment : Option Sentiment
  metadata : Option MetaInfo
  createdAt : Option String
deriving DecidableEq

/-- `calculateSentimentTrend`: null when either side is missing. -/
def calculateSentimentTrend (cur prev : Option Sentiment) : Option SentTrend :=
  match cur, prev with
  | some c, some p =>
    let delta := c.positive / 100 - p.positive / 100
    some
      { current := c, previous := p
        delta := jsRound (delta * 100)
        direction :=
          if delta > 0.02 then "improving"
          else if delta < -0.02 then "declining" else "stable"
        moodChange := c.mood ≠ p.mood }
  | _, _ => none

/-- `calculateDirection` on volumes. -/
def calculateDirection (cur prev : ℚ) : String :=
  let delta := cur - prev
  let percentChange := if prev > 0 then delta / prev * 100 else 0
  if percentChange > 10 then "up"
  else if percentChange < -10 then "down" else "stable"

/-- `calculateHealthScore`: base 50, the six adjustments, round, clamp to `[0, 100]`. -/
def calculateHealthScore (sentimentTrend : Option SentTrend) (changes : Changes) : ℤ :=
  let score : ℚ := 50
  let score :=
    if sentimentTrend.map SentTrend.direction = some "improving" then score + 15
    else score
  let score :=
    if sentimentTrend.map SentTrend.direction = some "declining" then score - 15
    else score
  let score := score + changes.resolvedIssues.length * 5
  let criticalNew :=
    (changes.newIssues.filter fun i => i.area.severityLabel = some "Critical").length
  let score := score - criticalNew * 10
  let score := score - changes.worsenedIssues.length * 3
  let score := score + changes.improvedIssues.length * 3
  max 0 (min 100 (jsRound score))

/-- `calculateOverallTrends`. -/
def calculateOverallTrends (current previous : Synthesis) (changes : Changes) :
    Trends :=
  let sentimentTrend := calculateSentimentTrend current.sentiment previous.sentiment
  let curTotal := jsOrQ (current.metadata.bind MetaInfo.totalAnalyzed) 0
  let prevTotal := jsOrQ (previous.metadata.bind MetaInfo.totalAnalyzed) 0
  let resolutionRate : ℚ :=
    changes.resolvedIssues.length / (jsOrN previous.focusAreas.length 1 : ℚ) * 100
  let newIssueRate : ℚ :=
    changes.newIssues.length / (jsOrN current.focusAreas.length 1 : ℚ) * 100
  { sentiment := sentimentTrend
    volume :=
      { current := curTotal, previous := prevTotal, delta := curTotal - prevTotal
        direction := calculateDirection curTotal prevTotal }
    resolutionRate := jsRound resolutionRate
    newIssueRate := jsRound newIssueRate
    overallHealth := calculateHealthScore sentimentTrend changes }

/-- `generateChangeSummary`. -/
def generateChangeSummary (changes : Changes) (trends : Trends) : String :=
  let parts : List String :=
    (if changes.newIssues.length > 0 then
      let critical :=
        changes.newIssues.filter fun i => i.area.severityLabel = some "Critical"
      if critical.length > 0 then
        [toString critical.length ++ " new critical issue(s) detected"]
      else [toString changes.newIssues.length ++ " new issue(s) emerged"]
     else []) ++
    (if changes.improvedIssues.length > 0 then
      [toString changes.improvedIssues.length ++ " issue(s) showing improvement"]
     else []) ++
    (if changes.worsenedIssues.length > 0 then
      [toString changes.worsenedIssues.length ++ " issue(s) getting worse"]
     else []) ++
    (if changes.resolvedIssues.length > 0 then
      [toString changes.resolvedIssues.length ++ " issue(s) resolved"]
     else []) ++
    (if trends.sentiment.map SentTrend.direction = some "improving" then
      ["overall sentiment improving"]
     else if trends.sentiment.map SentTrend.direction = some "declining" then
      ["overall sentiment declining"]
     else [])
  if parts.length > 0 then String.intercalate ", " parts ++ "."
  else "No significant changes detected."

/-- The differential analysis result. -/
structure Comparison where
  isFirstRun : Bool
  comparedAt : Option String
  previousSnapshotDate : Option String
  changes : Option Changes
  trends : Option Trends
  summary : Option String
deriving DecidableEq

/--
`compareSyntheses(current, previous)`.  `nowIso` stands for
`new Date().toISOString()` in the non-first-run branch.
-/
def compareSyntheses (nowIso : String) (current : Synthesis)
    (previous : Option Synthesis) : Comparison :=
  match previous with
  | none =>
    { isFirstRun := true, comparedAt := none, previousSnapshotDate := none
      changes := none, trends := none, summary := none }
  | some prev =>
    let changes := buildChanges current.focusAreas prev.focusAreas
    let trends := calculateOverallTrends current prev changes
    { isFirstRun := false
      comparedAt := some nowIso
      previousSnapshotDate := prev.createdAt
      changes := some changes
      trends := some trends
      summary := some (generateChangeSummary changes trends) }

/-! ## Orchestrator trend tagging (`calculateTrend`, `synthesizeFeedback`) -/

/-- A previous snapshot as consumed by the synthesizer's `calculateTrend`. -/
structure Snapshot where
  focusAreas : Option (List SnapArea)
deriving DecidableEq

/-- `calculateTrend(currentArea, previousSnapshot)` from the synthesizer. -/
def calculateTrend (currentArea : SnapArea) (previousSnapshot : Option Snapshot) :
    String :=
  match previousSnapshot with
  | none => "new"
  | some snap =>
    match snap.focusAreas with
    | none => "new"
    | some fas =>
      match fas.find? fun fa =>
          fa.title = currentArea.title && fa.category = currentArea.category with
      | none => "new"
      | some previous =>
        let delta := currentArea.frequency - previous.frequency
        if delta > 2 then "up"
        else if delta < -2 then "down" else "stable"

/-- `calculateTrendDelta(currentArea, previousSnapshot)` from the synthesizer. -/
def calculateTrendDelta (currentArea : SnapArea)
    (previousSnapshot : Option Snapshot) : ℚ :=
  match previousSnapshot with
  | none => 0
  | some snap =>
    match snap.focusAreas with
    | none => 0
    | some fas =>
      match fas.find? fun fa =>
          fa.title = currentArea.title && fa.category = currentArea.category with
      | none => currentArea.frequency
      | some previous => currentArea.frequency - previous.frequency

/--
The trend tag the orchestrator (`synthesizeFeedback`) attaches to an enhanced
focus area: `previousSnapshot ? calculateTrend(fa, previousSnapshot) : 'new'`.
-/
def orchestratorTrend (fa : SnapArea) (previousSnapshot : Option Snapshot) :
    String :=
  match previousSnapshot with
  | none => "new"
  | some snap => calculateTrend fa (some snap)

/--
Modelled from the spec (section 4.4 and claim C2's mapping): the trend tag
that the spec says the orchestrator should derive from the diff engine's
classification: new maps to new, improved to down, worsened to up, stable to
stable.
-/
def specTrendTag (changeType : String) : String :=
  if changeType = "new" then "new"
  else if changeType = "improved" then "down"
  else if changeType = "worsened" then "up"
  else "stable"

/-! ## Concrete inputs used by scenarios, counterexamples and witnesses -/

/-- The section-8 scenario item: 234 upvotes, 89 comments, Constructive, created 24h ago. -/
def scenarioItem : Item :=
  { sourceId := "s1", itype := "Constructive", category := "Usability Friction"
    upvotes := some 234, score := none, numComments := some 89, createdAt := some 0
    body := none, content := none, title := none, duplicateCount := none
    problemMetadata :=
      some { impactScore := some 9, featureArea := none, userSegmentGuess := none }
    delightMetadata := none, summary := none }

/-- The section-8 noise scenario item: 30-char body, 0 upvotes, Rant/Opinion. -/
def rantItem : Item :=
  { sourceId := "r1", itype := "Neutral", category := "Rant/Opinion"
    upvotes := some 0, score := none, numComments := none, createdAt := some 0
    body := some "thirty characters of body text", content := none, title := none
    duplicateCount := none, problemMetadata := none, delightMetadata := none
    summary := none }

/-- A Praise item whose classification category is Feature Request. -/
def praiseFeatureItem : Item :=
  { sourceId := "p1", itype := "Praise", category := "Feature Request"
    upvotes := none, score := none, numComments := none, createdAt := none
    body := none, content := none, title := none, duplicateCount := none
    problemMetadata := none
    delightMetadata := some { shareability := some 9, ahaMonent := some "AI" }
    summary := none }

/-- A Praise item whose classification category is neither Feature Request nor Bug. -/
def praiseGeneralItem : Item :=
  { sourceId := "p2", itype := "Praise", category := "N/A"
    upvotes := none, score := none, numComments := none, createdAt := none
    body := none, content := none, title := none, duplicateCount := none
    problemMetadata := none
    delightMetadata := some { shareability := some 8, ahaMonent := some "Search" }
    summary := none }

/-- A high-signal Constructive item (signal score 0.8). -/
def highItem : Item :=
  { sourceId := "h1", itype := "Constructive", category := "Usability Friction"
    upvotes := some 0, score := none, numComments := none, createdAt := some 0
    body := some "a body of sixty characters aaaaaaaaaaaaaaaaaaaaaaaaaaaaaaaa"
    content := none, title := none, duplicateCount := none
    problemMetadata :=
      some { impactScore := some 8, featureArea := some "Sync"
             userSegmentGuess := some "Power Users" }
    delightMetadata := none, summary := some { keyQuote := some "sync is slow" } }

/-- Current side of the C2 counterexample: frequency unchanged, impact up by 2. -/
def trendCur : SnapArea :=
  { title := "Sync", category := "bug", frequency := 5, impactScore := some 8
    severityLabel := none }

/-- Previous side of the C2 counterexample. -/
def trendPrev : SnapArea :=
  { title := "Sync", category := "bug", frequency := 5, impactScore := some 6
    severityLabel := none }

/-- An unrelated focus area used to pad the C2 witness snapshot. -/
def otherArea : SnapArea :=
  { title := "Export", category := "bug", frequency := 3, impactScore := some 5
    severityLabel := none }

/-- Current side of the section-8 improved-bucket scenario. -/
def syncCurArea : SnapArea :=
  { title := "Sync", category := "bug", frequency := 6, impactScore := some 6
    severityLabel := none }

/-- Previous side of the section-8 improved-bucket scenario. -/
def syncPrevArea : SnapArea :=
  { title := "Sync", category := "bug", frequency := 10, impactScore := some 6
    severityLabel := none }

/-- Current synthesis of the section-8 improved-bucket scenario. -/
def syncCur : Synthesis :=
  { focusAreas := [syncCurArea], sentiment := none, metadata := none, createdAt := none }

/-- Previous synthesis of the section-8 improved-bucket scenario. -/
def syncPrev : Synthesis :=
  { focusAreas := [syncPrevArea], sentiment := none, metadata := none, createdAt := none }

/-- Number of entries of a comparison bucket whose focus-area key is `k`. -/
def countKey (l : List BucketEntry) (k : String) : ℕ :=
  (l.filter fun e => keyStr e.area = k).length

/--
Invariant of the clusterer's accumulator table with respect to the already
processed prefix of the input: group ids are distinct, each group holds
exactly the processed items with its key (with matching running sum and quote
list), and every processed item's key owns a group.
-/
def GroupInv (processed : List SItem) (gs : List Group) : Prop :=
  (gs.map Group.id).Nodup ∧
  (∀ g ∈ gs,
    g.items = processed.filter (fun x => clusterKey x = g.id) ∧
    g.items ≠ [] ∧
    g.totalScore = (g.items.map iscore).sum ∧
    g.quotes = g.items.filterMap quoteOf) ∧
  (∀ x ∈ processed, clusterKey x ∈ gs.map Group.id)

/-- The scored form of `highItem` as it appears in the high-signal bucket. -/
def wHigh : SItem :=
  { item := highItem, signalScore := 0.9
    impactData := some (calculateImpactScore 0 highItem 1) }

/-- The scored form of `rantItem` as it appears in the noise bucket. -/
def wNoise : SItem := { item := rantItem, signalScore := 0.1, impactData := none }

/-- The focus area produced by clustering the singleton list `[wNoise]`. -/
def clusterWitnessArea : Area :=
  { id := "usability_friction:General", title := "General"
    category := "usability_friction", items := [wNoise], totalScore := 0
    quotes := [], segments := [], frequency := 1, avgImpact := 0, topQuote := ""
    affectedSegments := [], stakes := { stype := "neutral", message := "" }
    scoreRationale := "" }

section

attribute [local semireducible] Rat.add Rat.mul Rat.inv Rat.sub Rat.ofScientific

/-! ## Helper lemmas -/

/-- `Math.round` of an integer-valued rational is that integer. -/
theorem jsRound_intCast (n : ℤ) : jsRound (n : ℚ) = n := by
  unfold jsRound
  rw [Int.floor_int_add]
  norm_num

/-! ## C4: impact score formula and the 9.7 scenario -/

/--
C4: for every item the impact scorer returns
`round1(R*0.4 + S*0.3 + V*0.3)` with `R = min(10, (upvotes + comments*2)/20)`,
`S` per the type rules with fallback 7 (JS falsy fallback), and
`V = min(10, 2*(upvotes+comments)/max(1, ageHours))`; and the section-8
scenario item scores exactly 9.7.
-/
theorem impact_score_formula :
    (∀ (now : ℚ) (item : Item) (totalItems : ℕ),
      (calculateImpactScore now item totalItems).score =
        round1
          (min 10 ((jsOrQ item.upvotes (jsOrQ item.score 0) +
              jsOrQ item.numComments 0 * 2) / 20) * 0.4 +
           (if item.itype = "Constructive" then
              jsOrQ (item.problemMetadata.bind ProblemMetadata.impactScore) 7
            else if item.itype = "Praise" then
              jsOrQ (item.delightMetadata.bind DelightMetadata.shareability) 7
            else 5) * 0.3 +
           min 10 (2 * (jsOrQ item.upvotes (jsOrQ item.score 0) +
              jsOrQ item.numComments 0) /
             max 1 ((now - item.createdAt.getD now) / 3600000)) * 0.3)) ∧
    (calculateImpactScore (24 * 3600000) scenarioItem 100).score = 9.7 := by
  constructor
  · intro now item totalItems
    show round1 _ = round1 _
    have hc : (match item.createdAt with | some t => t | none => now) =
        item.createdAt.getD now := by
      cases item.createdAt <;> rfl
    rw [hc]
    have hv : ∀ A B : ℚ, min 10 (A / B * 2) = min 10 (2 * A / B) := by
      intro A B
      congr 1
      ring
    rw [show ((1000 : ℚ) * 60 * 60) = 3600000 by norm_num, hv]
  · decide

/-! ## C8: first-run contract -/

/--
C8: for every current input, comparing against an absent previous snapshot
returns exactly the record with `isFirstRun = true` and null `changes` and
`trends` (and no other populated field); absence of a previous snapshot is
not an error.
-/
theorem first_run_contract (nowIso : String) (current : Synthesis) :
    compareSyntheses nowIso current none =
      { isFirstRun := true, comparedAt := none, previousSnapshotDate := none
        changes := none, trends := none, summary := none } := rfl

/-! ## C6: health score formula and clamp -/

/--
C6: the overall health score equals 50, plus/minus 15 for the sentiment
direction, plus 5 per resolved issue, minus 10 per new Critical issue, minus
3 per worsened issue, plus 3 per improved issue, clamped to `[0, 100]`; in
particular it always lies in `[0, 100]`.
-/
theorem health_score_formula (st : Option SentTrend) (ch : Changes) :
    calculateHealthScore st ch =
      max 0 (min 100
        (50 + (if st.map SentTrend.direction = some "improving" then 15 else 0)
          - (if st.map SentTrend.direction = some "declining" then 15 else 0)
          + 5 * (ch.resolvedIssues.length : ℤ)
          - 10 * ((ch.newIssues.filter fun i =>
              i.area.severityLabel = some "Critical").length : ℤ)
          - 3 * (ch.worsenedIssues.length : ℤ)
          + 3 * (ch.improvedIssues.length : ℤ))) ∧
    0 ≤ calculateHealthScore st ch ∧ calculateHealthScore st ch ≤ 100 := by
  refine ⟨?_, ?_, ?_⟩
  · simp only [calculateHealthScore]
    refine congrArg (fun z : ℤ => max 0 (min 100 z)) ?_
    split_ifs with h1 h2 <;>
      · rw [show jsRound _ = _ from rfl, jsRound]
        rw [Int.floor_eq_iff]
        constructor <;> push_cast <;> linarith
  · simp only [calculateHealthScore]
    exact le_max_left 0 _
  · simp only [calculateHealthScore]
    exact max_le (by norm_num) (min_le_left _ _)

/-! ## C1: cluster category priority (corrected) -/

/--
C1 counterexample: an item with `type = Praise` and
`category = Feature Request` is assigned cluster category `feature_request`,
not `praise` — the category string mapping is checked before the Praise
override, contradicting the claimed ordering.
-/
theorem cluster_category_praise_cex :
    praiseFeatureItem.itype = "Praise" ∧
    clusterCategory praiseFeatureItem = "feature_request" ∧
    ((clusterIntoFocusAreas
        [{ item := praiseFeatureItem, signalScore := 1, impactData := none }]).map
      Area.category) = ["feature_request"] ∧
    ¬ clusterCategory praiseFeatureItem = "praise" := by decide

/--
C1 amended: the clusterer checks the classification category first
(Feature Request then Bug); only when the category is neither does
`type = Praise` force `praise`; otherwise the category is
`usability_friction`.
-/
theorem cluster_category_priority :
    (∀ item : Item, item.category = "Feature Request" →
      clusterCategory item = "feature_request") ∧
    (∀ item : Item, item.category = "Bug" → clusterCategory item = "bug") ∧
    (∀ item : Item, item.category ≠ "Feature Request" → item.category ≠ "Bug" →
      item.itype = "Praise" → clusterCategory item = "praise") ∧
    (∀ item : Item, item.category ≠ "Feature Request" → item.category ≠ "Bug" →
      item.itype ≠ "Praise" → clusterCategory item = "usability_friction") := by
  refine ⟨?_, ?_, ?_, ?_⟩ <;> intro item h1 <;>
    simp_all [clusterCategory]

/-- C1 amended witness at a Praise item with category `N/A`. -/
theorem cluster_category_priority_witness :
    clusterCategory praiseGeneralItem = "praise" :=
  cluster_category_priority.2.2.1 praiseGeneralItem (by decide) (by decide)
    (by decide)

/-! ## C3: impact data carried by the partition buckets (corrected) -/

/--
C3 counterexample: for the section-8 noise item, the noise bucket's element
does not carry the ImpactData computed for it — noise pushes spread only the
item and its signal score.
-/
theorem noise_impact_data_cex :
    calculateSignalScore rantItem = 0.1 ∧
    ((filterSignalFromNoise 0 [rantItem]).noise.map SItem.impactData) = [none] ∧
    (filterSignalFromNoise 0 [rantItem]).highSignal = [] ∧
    ¬ (∀ e ∈ (filterSignalFromNoise 0 [rantItem]).noise,
        e.impactData = some (calculateImpactScore 0 e.item 1)) := by decide

/--
C3 amended: every high-signal element carries the ImpactData computed for its
item (with the corpus size as `totalItems`), while noise elements carry no
ImpactData at all; only high-signal items proceed to clustering.
-/
theorem signal_buckets_impact_data (now : ℚ) (items : List Item) :
    (∀ e ∈ (filterSignalFromNoise now items).highSignal,
      e.impactData = some (calculateImpactScore now e.item items.length)) ∧
    (∀ e ∈ (filterSignalFromNoise now items).noise, e.impactData = none) := by
  constructor
  · intro e he
    simp only [filterSignalFromNoise] at he
    rw [List.mem_insertionSort, List.mem_filterMap] at he
    obtain ⟨a, _, hfa⟩ := he
    by_cases hs : calculateSignalScore a ≥ 0.5
    · rw [if_pos hs] at hfa
      injection hfa with h
      subst h
      rfl
    · rw [if_neg hs] at hfa
      exact absurd hfa (by simp)
  · intro e he
    simp only [filterSignalFromNoise] at he
    rw [List.mem_filterMap] at he
    obtain ⟨a, _, hfa⟩ := he
    by_cases hs : calculateSignalScore a ≥ 0.5
    · rw [if_pos hs] at hfa
      exact absurd hfa (by simp)
    · rw [if_neg hs] at hfa
      injection hfa with h
      subst h
      rfl

/-- C3 amended witness: the noise element for the section-8 noise item. -/
theorem signal_buckets_impact_data_witness : wNoise.impactData = none :=
  (signal_buckets_impact_data 0 [rantItem]).2 wNoise (by decide)

/-! ## C9: partition completeness, bucketing and sort order -/

/--
Splitting a list through two complementary `filterMap`s preserves the
multiset of projections.
-/
theorem perm_filterMap_split {α β γ : Type} (f g : α → Option β) (pr : β → γ)
    (pr' : α → γ)
    (hsplit : ∀ a : α,
      (∃ b, f a = some b ∧ g a = none ∧ pr b = pr' a) ∨
      (∃ b, f a = none ∧ g a = some b ∧ pr b = pr' a))
    (l : List α) :
    ((l.filterMap f).map pr ++ (l.filterMap g).map pr).Perm (l.map pr') := by
  induction l with
  | nil => simp
  | cons a l ih =>
    rcases hsplit a with ⟨b, hf, hg, hb⟩ | ⟨b, hf, hg, hb⟩
    · simp only [List.filterMap_cons, hf, hg, List.map_cons, List.cons_append]
      rw [hb]
      exact ih.cons _
    · simp only [List.filterMap_cons, hf, hg, List.map_cons]
      refine List.Perm.trans List.perm_middle ?_
      rw [hb]
      exact ih.cons _

/--
C9: the partition never drops or duplicates an item — the bucket lengths sum
to the input length and the multiset of source ids over both buckets equals
the input's; each element sits in the bucket its signal score dictates
(`>= 0.5` high-signal, else noise) and carries its computed signal score; the
high-signal bucket is sorted descending by impact score.
-/
theorem signal_partition (now : ℚ) (items : List Item) :
    (filterSignalFromNoise now items).highSignal.length +
      (filterSignalFromNoise now items).noise.length = items.length ∧
    ((filterSignalFromNoise now items).highSignal.map (fun e => e.item.sourceId) ++
      (filterSignalFromNoise now items).noise.map (fun e => e.item.sourceId)).Perm
      (items.map Item.sourceId) ∧
    (∀ e ∈ (filterSignalFromNoise now items).highSignal,
      e.signalScore = calculateSignalScore e.item ∧
      calculateSignalScore e.item ≥ 0.5) ∧
    (∀ e ∈ (filterSignalFromNoise now items).noise,
      e.signalScore = calculateSignalScore e.item ∧
      ¬ calculateSignalScore e.item ≥ 0.5) ∧
    List.Sorted impactDesc (filterSignalFromNoise now items).highSignal := by
  have hperm :
      ((filterSignalFromNoise now items).highSignal.map
          (fun e => e.item.sourceId) ++
        (filterSignalFromNoise now items).noise.map
          (fun e => e.item.sourceId)).Perm (items.map Item.sourceId) := by
    refine List.Perm.trans
      (List.Perm.append (List.Perm.map _ (List.perm_insertionSort _ _))
        (List.Perm.refl _)) ?_
    refine perm_filterMap_split _ _ _ _ ?_ items
    intro a
    by_cases hs : calculateSignalScore a ≥ 0.5
    · exact Or.inl ⟨_, by dsimp only; rw [if_pos hs], by dsimp only; rw [if_pos hs],
        rfl⟩
    · exact Or.inr ⟨_, by dsimp only; rw [if_neg hs], by dsimp only; rw [if_neg hs],
        rfl⟩
  refine ⟨?_, hperm, ?_, ?_, ?_⟩
  · have := hperm.length_eq
    simpa using this
  · intro e he
    simp only [filterSignalFromNoise] at he
    rw [List.mem_insertionSort, List.mem_filterMap] at he
    obtain ⟨a, _, hfa⟩ := he
    by_cases hs : calculateSignalScore a ≥ 0.5
    · rw [if_pos hs] at hfa
      injection hfa with h
      subst h
      exact ⟨rfl, hs⟩
    · rw [if_neg hs] at hfa
      exact absurd hfa (by simp)
  · intro e he
    simp only [filterSignalFromNoise] at he
    rw [List.mem_filterMap] at he
    obtain ⟨a, _, hfa⟩ := he
    by_cases hs : calculateSignalScore a ≥ 0.5
    · rw [if_pos hs] at hfa
      exact absurd hfa (by simp)
    · rw [if_neg hs] at hfa
      injection hfa with h
      subst h
      exact ⟨rfl, hs⟩
  · exact List.sorted_insertionSort impactDesc _

/-- C9 witness: the high-signal element for the constructive sample item. -/
theorem signal_partition_witness :
    wHigh.signalScore = calculateSignalScore wHigh.item ∧
      calculateSignalScore wHigh.item ≥ 0.5 :=
  (signal_partition 0 [highItem]).2.2.1 wHigh (by decide)

/-! ## C5: diff-engine classification of matched areas -/

/--
C5: a focus area present in both snapshots is classified improved iff
`freqDelta < -2` or `impactDelta < -1`, else worsened iff `freqDelta > 2` or
`impactDelta > 1`, else stable, with the improved check strictly first.
-/
theorem diff_classification (mprev : List (String × SnapArea)) (a p : SnapArea)
    (h : alookup mprev (keyStr a) = some p) :
    ((toEntry mprev a).changeType = "improved" ↔
      (a.frequency - p.frequency < -2 ∨
        a.impactScore.getD 0 - p.impactScore.getD 0 < -1)) ∧
    ((toEntry mprev a).changeType = "worsened" ↔
      (¬(a.frequency - p.frequency < -2 ∨
          a.impactScore.getD 0 - p.impactScore.getD 0 < -1) ∧
        (a.frequency - p.frequency > 2 ∨
          a.impactScore.getD 0 - p.impactScore.getD 0 > 1))) ∧
    ((toEntry mprev a).changeType = "stable" ↔
      (¬(a.frequency - p.frequency < -2 ∨
          a.impactScore.getD 0 - p.impactScore.getD 0 < -1) ∧
        ¬(a.frequency - p.frequency > 2 ∨
          a.impactScore.getD 0 - p.impactScore.getD 0 > 1))) := by
  unfold toEntry
  rw [h]
  dsimp only
  split_ifs with h1 h2 <;> refine ⟨?_, ?_, ?_⟩ <;>
    simp_all

/--
C5 witness: the section-8 Sync scenario (previous frequency 10, current 6,
impact unchanged) is classified improved, and lands in the improved bucket of
the full comparison.
-/
theorem diff_classification_witness :
    ((toEntry (mapFromAreas [syncPrevArea]) syncCurArea).changeType = "improved" ↔
      (syncCurArea.frequency - syncPrevArea.frequency < -2 ∨
        syncCurArea.impactScore.getD 0 - syncPrevArea.impactScore.getD 0 < -1)) ∧
    ((compareSyntheses "t" syncCur (some syncPrev)).changes.map fun ch =>
      ch.improvedIssues.map fun e => e.area.title) = some ["Sync"] :=
  ⟨(diff_classification (mapFromAreas [syncPrevArea]) syncCurArea syncPrevArea
      (by decide)).1, by decide⟩

/-! ## C2: orchestrator trend tag vs diff-engine classification (corrected) -/

/--
C2 counterexample: with frequency delta 0 but impact delta 2, the
orchestrator tags the area `stable` while the diff engine classifies it
worsened (mapped to `up`): the orchestrator's `calculateTrend` ignores the
impact delta.
-/
theorem orchestrator_trend_cex :
    orchestratorTrend trendCur (some { focusAreas := some [trendPrev] }) =
      "stable" ∧
    (toEntry (mapFromAreas [trendPrev]) trendCur).changeType = "worsened" ∧
    specTrendTag
      (toEntry (mapFromAreas [trendPrev]) trendCur).changeType = "up" ∧
    trendCur.frequency - trendPrev.frequency = 0 ∧
    trendCur.impactScore.getD 0 - trendPrev.impactScore.getD 0 = 2 ∧
    ("stable" : String) ≠ "up" := by decide

/--
C2 amended: the orchestrator's trend tag is computed from the frequency delta
alone — `new` when no snapshot is supplied or the area has no match,
`up` when `freqDelta > 2`, `down` when `freqDelta < -2`, else `stable` — and
it agrees with the diff engine's classification (under new→new,
improved→down, worsened→up, stable→stable) whenever the matched area's
impact delta lies within `[-1, 1]`.
-/
theorem orchestrator_trend_freq_only :
    (∀ fa : SnapArea, orchestratorTrend fa none = "new") ∧
    (∀ fa : SnapArea,
      orchestratorTrend fa (some { focusAreas := none }) = "new") ∧
    (∀ (cur : SnapArea) (fas : List SnapArea),
      fas.find? (fun fa =>
        fa.title = cur.title && fa.category = cur.category) = none →
      orchestratorTrend cur (some { focusAreas := some fas }) = "new") ∧
    (∀ (cur p : SnapArea) (fas : List SnapArea),
      fas.find? (fun fa =>
        fa.title = cur.title && fa.category = cur.category) = some p →
      orchestratorTrend cur (some { focusAreas := some fas }) =
        (if cur.frequency - p.frequency > 2 then "up"
         else if cur.frequency - p.frequency < -2 then "down" else "stable")) ∧
    (∀ (cur p : SnapArea) (fas : List SnapArea),
      fas.find? (fun fa =>
        fa.title = cur.title && fa.category = cur.category) = some p →
      -1 ≤ cur.impactScore.getD 0 - p.impactScore.getD 0 →
      cur.impactScore.getD 0 - p.impactScore.getD 0 ≤ 1 →
      orchestratorTrend cur (some { focusAreas := some fas }) =
        specTrendTag (toEntry (mapFromAreas [p]) cur).changeType) := by
  have hmatch : ∀ (cur p : SnapArea) (fas : List SnapArea),
      fas.find? (fun fa =>
        fa.title = cur.title && fa.category = cur.category) = some p →
      p.title = cur.title ∧ p.category = cur.category := by
    intro cur p fas hfind
    have := List.find?_some hfind
    simpa using this
  refine ⟨fun _ => rfl, fun _ => rfl, ?_, ?_, ?_⟩
  · intro cur fas hnone
    unfold orchestratorTrend calculateTrend
    dsimp only
    rw [hnone]
  · intro cur p fas hfind
    unfold orchestratorTrend calculateTrend
    dsimp only
    rw [hfind]
  · intro cur p fas hfind hlo hhi
    obtain ⟨h1, h2⟩ := hmatch cur p fas hfind
    unfold orchestratorTrend calculateTrend
    dsimp only
    rw [hfind]
    unfold toEntry
    have hlook : alookup (mapFromAreas [p]) (keyStr cur) = some p := by
      show alookup [(keyStr p, p)] (keyStr cur) = some p
      unfold alookup
      rw [if_pos (by unfold keyStr; rw [h1, h2])]
    rw [hlook]
    dsimp only
    by_cases hgt : cur.frequency - p.frequency > 2
    · rw [if_pos hgt, if_neg ?hni, if_pos (Or.inl hgt)]
      case hni =>
        rintro (h | h) <;> linarith
      rfl
    · by_cases hlt : cur.frequency - p.frequency < -2
      · rw [if_neg hgt, if_pos hlt, if_pos (Or.inl hlt)]
        rfl
      · rw [if_neg hgt, if_neg hlt, if_neg ?hni2, if_neg ?hnw2]
        case hni2 =>
          rintro (h | h) <;> linarith
        case hnw2 =>
          rintro (h | h) <;> linarith
        rfl

/-- C2 amended witness: a matched stable area in a two-area snapshot. -/
theorem orchestrator_trend_freq_only_witness :
    orchestratorTrend syncCurArea
        (some { focusAreas := some [otherArea, trendPrev] }) =
      specTrendTag
        (toEntry (mapFromAreas [trendPrev]) syncCurArea).changeType :=
  orchestrator_trend_freq_only.2.2.2.2 syncCurArea trendPrev
    [otherArea, trendPrev] (by decide) (by decide) (by decide)

/-! ## C7: bucket partition of compared keys — association map lemmas -/

/-- Keys after a `Map.set`: the old keys plus the inserted one. -/
theorem mem_keys_mapInsert (m : List (String × SnapArea)) (k : String)
    (v : SnapArea) (k' : String) :
    k' ∈ (mapInsert m k v).map Prod.fst ↔ k' ∈ m.map Prod.fst ∨ k' = k := by
  induction m with
  | nil => simp [mapInsert]
  | cons p m ih =>
    obtain ⟨k1, v1⟩ := p
    by_cases h : k1 = k
    · subst h
      simp [mapInsert]
      tauto
    · simp [mapInsert, h, ih]
      tauto

/-- `Map.set` preserves distinctness of keys. -/
theorem nodup_keys_mapInsert (m : List (String × SnapArea)) (k : String)
    (v : SnapArea) (h : (m.map Prod.fst).Nodup) :
    ((mapInsert m k v).map Prod.fst).Nodup := by
  induction m with
  | nil => simp [mapInsert]
  | cons p m ih =>
    obtain ⟨k1, v1⟩ := p
    simp only [List.map_cons, List.nodup_cons] at h
    by_cases hk : k1 = k
    · subst hk
      simpa [mapInsert] using h
    · simp only [mapInsert, if_neg hk, List.map_cons, List.nodup_cons]
      refine ⟨?_, ih h.2⟩
      rw [mem_keys_mapInsert]
      rintro (hm | rfl)
      · exact h.1 hm
      · exact hk rfl

/-- Every entry after a `Map.set` is the inserted pair or an old entry. -/
theorem mapInsert_entry (m : List (String × SnapArea)) (k : String) (v : SnapArea)
    (p' : String × SnapArea) (hp : p' ∈ mapInsert m k v) :
    p' = (k, v) ∨ p' ∈ m := by
  induction m with
  | nil => simpa [mapInsert] using hp
  | cons q m ih =>
    obtain ⟨k1, v1⟩ := q
    by_cases h : k1 = k
    · subst h
      rw [mapInsert, if_pos rfl] at hp
      rcases List.mem_cons.mp hp with rfl | hp
      · exact Or.inl rfl
      · exact Or.inr (List.mem_cons_of_mem _ hp)
    · rw [mapInsert, if_neg h] at hp
      rcases List.mem_cons.mp hp with rfl | hp
      · exact Or.inr (List.mem_cons_self _ _)
      · rcases ih hp with h' | h'
        · exact Or.inl h'
        · exact Or.inr (List.mem_cons_of_mem _ h')

/-- The three structural facts about `mapFromAreas`. -/
theorem mapFromAreas_props (l : List SnapArea) :
    ((mapFromAreas l).map Prod.fst).Nodup ∧
    (∀ p ∈ mapFromAreas l, p.1 = keyStr p.2) ∧
    (∀ k, k ∈ (mapFromAreas l).map Prod.fst ↔ k ∈ l.map keyStr) := by
  suffices h : ∀ (l : List SnapArea) (m : List (String × SnapArea)),
      (m.map Prod.fst).Nodup → (∀ p ∈ m, p.1 = keyStr p.2) →
      (((l.foldl (fun m fa => mapInsert m (keyStr fa) fa) m).map Prod.fst).Nodup ∧
       (∀ p ∈ l.foldl (fun m fa => mapInsert m (keyStr fa) fa) m,
         p.1 = keyStr p.2) ∧
       (∀ k, k ∈ (l.foldl (fun m fa => mapInsert m (keyStr fa) fa) m).map Prod.fst ↔
         k ∈ m.map Prod.fst ∨ k ∈ l.map keyStr)) by
    obtain ⟨ha, hb, hc⟩ := h l [] (by simp) (by simp)
    refine ⟨ha, hb, fun k => ?_⟩
    rw [mapFromAreas, hc k]
    simp
  intro l
  induction l with
  | nil =>
    intro m h1 h2
    exact ⟨h1, h2, fun k => by simp⟩
  | cons fa l ih =>
    intro m h1 h2
    have h1' := nodup_keys_mapInsert m (keyStr fa) fa h1
    have h2' : ∀ p ∈ mapInsert m (keyStr fa) fa, p.1 = keyStr p.2 := by
      intro p hp
      rcases mapInsert_entry _ _ _ _ hp with rfl | hp
      · rfl
      · exact h2 p hp
    obtain ⟨ha, hb, hc⟩ := ih (mapInsert m (keyStr fa) fa) h1' h2'
    refine ⟨ha, hb, fun k => ?_⟩
    rw [List.foldl_cons] at *
    rw [hc k, mem_keys_mapInsert]
    simp only [List.map_cons, List.mem_cons]
    tauto

/-- `Map.get` returns null exactly when the key is absent. -/
theorem alookup_eq_none (m : List (String × SnapArea)) (k : String) :
    alookup m k = none ↔ k ∉ m.map Prod.fst := by
  induction m with
  | nil => simp [alookup]
  | cons p m ih =>
    obtain ⟨k1, v1⟩ := p
    by_cases h : k1 = k
    · subst h
      simp [alookup]
    · simp [alookup, h, ih, Ne.symm h]

/-- Key-filtered count over the values of a map with distinct keys. -/
theorem count_values_key (m : List (String × SnapArea)) (k : String)
    (hnd : (m.map Prod.fst).Nodup) (hinv : ∀ p ∈ m, p.1 = keyStr p.2) :
    ((m.map Prod.snd).filter fun a => keyStr a = k).length =
      if k ∈ m.map Prod.fst then 1 else 0 := by
  induction m with
  | nil => simp
  | cons p m ih =>
    obtain ⟨k1, v1⟩ := p
    have hk1 : k1 = keyStr v1 := hinv (k1, v1) (List.mem_cons_self _ _)
    simp only [List.map_cons, List.nodup_cons] at hnd
    have ih' := ih hnd.2 (fun p hp => hinv p (List.mem_cons_of_mem _ hp))
    by_cases h : keyStr v1 = k
    · have hkk : k = k1 := by rw [hk1, h]
      have hnot : k ∉ m.map Prod.fst := by
        rw [hkk]
        exact hnd.1
      simp [List.filter_cons, h, ih', hnot, hkk]
      intro a x hm hak
      have hx : x = keyStr a := hinv (x, a) (List.mem_cons_of_mem _ hm)
      apply hnot
      rw [hkk, ← hak, ← hx]
      exact List.mem_map.mpr ⟨(x, a), hm, rfl⟩
    · have hkk : ¬ k = k1 := by
        intro hk
        rw [hk, hk1] at h
        exact h rfl
      simp [List.filter_cons, h, ih', hkk]
      by_cases hm : k ∈ List.map Prod.fst m
      · rw [if_pos hm, if_pos (List.mem_cons_of_mem _ hm)]
      · rw [if_neg hm, if_neg ?_]
        intro h'
        rcases List.mem_cons.mp h' with h'' | h''
        · exact hkk h''
        · exact hm h''

/-- Classifying an area never changes the area it carries. -/
theorem toEntry_area (mp : List (String × SnapArea)) (a : SnapArea) :
    (toEntry mp a).area = a := by
  unfold toEntry
  cases alookup mp (keyStr a) with
  | none => rfl
  | some p =>
    dsimp only
    split_ifs <;> rfl

/-- The resolved annotation never changes the area it carries. -/
theorem toResolved_area (p : SnapArea) : (toResolved p).area = p := rfl

/-- Every classified entry carries one of the four current-side tags. -/
theorem toEntry_changeType (mp : List (String × SnapArea)) (a : SnapArea) :
    (toEntry mp a).changeType = "new" ∨ (toEntry mp a).changeType = "improved" ∨
    (toEntry mp a).changeType = "worsened" ∨
    (toEntry mp a).changeType = "stable" := by
  unfold toEntry
  cases alookup mp (keyStr a) with
  | none => exact Or.inl rfl
  | some p =>
    dsimp only
    split_ifs <;> simp

/-- The four tag filters of an entry list split its key count exactly. -/
theorem four_bucket_count (E : List BucketEntry) (k : String)
    (h : ∀ e ∈ E, e.changeType = "new" ∨ e.changeType = "improved" ∨
      e.changeType = "worsened" ∨ e.changeType = "stable") :
    countKey (E.filter fun e => e.changeType = "new") k +
      countKey (E.filter fun e => e.changeType = "improved") k +
      countKey (E.filter fun e => e.changeType = "worsened") k +
      countKey (E.filter fun e => e.changeType = "stable") k = countKey E k := by
  have flat : ∀ (l : List BucketEntry) (t : String),
      countKey (l.filter fun e => e.changeType = t) k =
        l.countP fun e => decide (keyStr e.area = k) && decide (e.changeType = t) := by
    intro l t
    unfold countKey
    rw [← List.countP_eq_length_filter, List.countP_filter]
  have flat0 : ∀ l : List BucketEntry,
      countKey l k = l.countP fun e => decide (keyStr e.area = k) := by
    intro l
    unfold countKey
    rw [← List.countP_eq_length_filter]
  rw [flat, flat, flat, flat, flat0]
  induction E with
  | nil => simp
  | cons e E ih =>
    have he := h e (List.mem_cons_self _ _)
    have ihh := ih fun x hx => h x (List.mem_cons_of_mem _ hx)
    simp only [List.countP_cons]
    rcases he with h1 | h1 | h1 | h1 <;> by_cases hk : keyStr e.area = k <;>
      simp [h1, hk, ihh] <;> omega

/-- Key count over the classified current entries. -/
theorem countKey_entries (mp m : List (String × SnapArea)) (k : String)
    (hnd : (m.map Prod.fst).Nodup) (hinv : ∀ p ∈ m, p.1 = keyStr p.2) :
    countKey ((m.map Prod.snd).map (toEntry mp)) k =
      if k ∈ m.map Prod.fst then 1 else 0 := by
  unfold countKey
  rw [List.filter_map, List.length_map]
  rw [List.filter_congr fun a _ => by rw [Function.comp_apply, toEntry_area]]
  exact count_values_key m k hnd hinv

/-- Key count over the map values surviving a key-determined condition. -/
theorem count_values_key_cond (m : List (String × SnapArea)) (k : String)
    (c : String → Bool)
    (hnd : (m.map Prod.fst).Nodup) (hinv : ∀ p ∈ m, p.1 = keyStr p.2) :
    (((m.map Prod.snd).filter fun a => c (keyStr a)).filter
        fun a => keyStr a = k).length =
      if k ∈ m.map Prod.fst ∧ c k = true then 1 else 0 := by
  induction m with
  | nil => simp
  | cons p m ih =>
    obtain ⟨k1, v1⟩ := p
    have hk1 : k1 = keyStr v1 := hinv (k1, v1) (List.mem_cons_self _ _)
    simp only [List.map_cons, List.nodup_cons] at hnd
    have ih' := ih hnd.2 fun p hp => hinv p (List.mem_cons_of_mem _ hp)
    simp only [List.map_cons]
    rw [List.filter_cons]
    by_cases hc1 : c (keyStr v1) = true
    · rw [if_pos hc1, List.filter_cons]
      by_cases h : keyStr v1 = k
      · have hkk : k = k1 := by rw [hk1, h]
        have hnot : k ∉ List.map Prod.fst m := by
          rw [hkk]
          exact hnd.1
        rw [if_pos (by simp [h]), List.length_cons, ih',
          if_neg (by rintro ⟨hm, -⟩; exact hnot hm),
          if_pos ⟨List.mem_cons.mpr (Or.inl hkk), by rw [← h]; exact hc1⟩]
      · have hkk : ¬ k = k1 := fun hk => h (hk.trans hk1).symm
        rw [if_neg (by simp [h]), ih']
        by_cases hm : k ∈ List.map Prod.fst m ∧ c k = true
        · rw [if_pos hm, if_pos ⟨List.mem_cons_of_mem _ hm.1, hm.2⟩]
        · rw [if_neg hm, if_neg ?_]
          rintro ⟨hmem, hck⟩
          rcases List.mem_cons.mp hmem with h'' | h''
          · exact hkk h''
          · exact hm ⟨h'', hck⟩
    · rw [if_neg hc1, ih']
      by_cases h : keyStr v1 = k
      · have hckf : ¬ (c k = true) := fun hck => hc1 (by rw [h]; exact hck)
        rw [if_neg (by rintro ⟨-, hck⟩; exact hckf hck),
          if_neg (by rintro ⟨-, hck⟩; exact hckf hck)]
      · have hkk : ¬ k = k1 := fun hk => h (hk.trans hk1).symm
        by_cases hm : k ∈ List.map Prod.fst m ∧ c k = true
        · rw [if_pos hm, if_pos ⟨List.mem_cons_of_mem _ hm.1, hm.2⟩]
        · rw [if_neg hm, if_neg ?_]
          rintro ⟨hmem, hck⟩
          rcases List.mem_cons.mp hmem with h'' | h''
          · exact hkk h''
          · exact hm ⟨h'', hck⟩

/-- Key count over the resolved bucket. -/
theorem countKey_resolved (mc m : List (String × SnapArea)) (k : String)
    (hnd : (m.map Prod.fst).Nodup) (hinv : ∀ p ∈ m, p.1 = keyStr p.2) :
    countKey
        (((m.map Prod.snd).filter fun p => alookup mc (keyStr p) = none).map
          toResolved) k =
      if k ∈ m.map Prod.fst ∧ alookup mc k = none then 1 else 0 := by
  unfold countKey
  rw [List.filter_map, List.length_map]
  rw [List.filter_congr fun a _ => by rw [Function.comp_apply, toResolved_area]]
  have := count_values_key_cond m k (fun s => decide (alookup mc s = none)) hnd hinv
  simp only [decide_eq_true_eq] at this
  rw [this]

/--
C7: in every comparison of a current focus-area set against a previous
snapshot, each focus-area key present on either side appears in exactly one
of the five buckets newIssues, improvedIssues, worsenedIssues,
resolvedIssues, stableIssues (and a key on neither side appears in none).
-/
theorem comparison_buckets (nowIso : String) (cur prev : Synthesis)
    (ch : Changes)
    (h : (compareSyntheses nowIso cur (some prev)).changes = some ch)
    (k : String) :
    countKey ch.newIssues k + countKey ch.improvedIssues k +
      countKey ch.worsenedIssues k + countKey ch.stableIssues k +
      countKey ch.resolvedIssues k =
      if k ∈ cur.focusAreas.map keyStr ∨ k ∈ prev.focusAreas.map keyStr then 1
      else 0 := by
  have hch : ch = buildChanges cur.focusAreas prev.focusAreas := by
    simpa [compareSyntheses] using h.symm
  subst hch
  obtain ⟨hndC, hinvC, hkeysC⟩ := mapFromAreas_props cur.focusAreas
  obtain ⟨hndP, hinvP, hkeysP⟩ := mapFromAreas_props prev.focusAreas
  simp only [buildChanges]
  rw [four_bucket_count _ k ?htags]
  case htags =>
    intro e he
    obtain ⟨a, _, rfl⟩ := List.mem_map.mp he
    exact toEntry_changeType _ _
  rw [countKey_entries _ _ k hndC hinvC, countKey_resolved _ _ k hndP hinvP]
  by_cases h1 : k ∈ cur.focusAreas.map keyStr <;>
    by_cases h2 : k ∈ prev.focusAreas.map keyStr
  · rw [if_pos ((hkeysC k).mpr h1), if_pos (Or.inl h1),
      if_neg (by
        rintro ⟨-, hnone⟩
        exact (alookup_eq_none _ _).mp hnone ((hkeysC k).mpr h1))]
  · rw [if_pos ((hkeysC k).mpr h1), if_pos (Or.inl h1),
      if_neg (by
        rintro ⟨hmem, -⟩
        exact h2 ((hkeysP k).mp hmem))]
  · rw [if_neg (fun hm => h1 ((hkeysC k).mp hm)), if_pos (Or.inr h2),
      if_pos ⟨(hkeysP k).mpr h2,
        (alookup_eq_none _ _).mpr fun hm => h1 ((hkeysC k).mp hm)⟩]
  · rw [if_neg (fun hm => h1 ((hkeysC k).mp hm)),
      if_neg (show ¬ (k ∈ List.map Prod.fst (mapFromAreas prev.focusAreas) ∧
          alookup (mapFromAreas cur.focusAreas) k = none) by
        rintro ⟨hmem, -⟩
        exact h2 ((hkeysP k).mp hmem)),
      if_neg (show ¬ (k ∈ List.map keyStr cur.focusAreas ∨
          k ∈ List.map keyStr prev.focusAreas) by
        rintro (h' | h')
        · exact h1 h'
        · exact h2 h')]

/-! ## C10: clusterer structure lemmas -/

/-- Updating a group never changes its key. -/
theorem updateGroup_id (g : Group) (e : SItem) : (updateGroup g e).id = g.id := rfl

/-- The ids after processing one item: unchanged, or the new key appended. -/
theorem addItem_ids (gs : List Group) (e : SItem) :
    (addItem gs e).map Group.id =
      if clusterKey e ∈ gs.map Group.id then gs.map Group.id
      else gs.map Group.id ++ [clusterKey e] := by
  induction gs with
  | nil => simp [addItem, updateGroup, newGroup]
  | cons g gs ih =>
    by_cases h : g.id = clusterKey e
    · simp only [addItem, if_pos h, List.map_cons, updateGroup_id]
      rw [if_pos (List.mem_cons.mpr (Or.inl h.symm))]
    · simp only [addItem, if_neg h, List.map_cons, ih]
      by_cases hm : clusterKey e ∈ gs.map Group.id
      · rw [if_pos hm, if_pos (List.mem_cons.mpr (Or.inr hm))]
      · rw [if_neg hm, if_neg ?_]
        · simp
        · intro h'
          rcases List.mem_cons.mp h' with h'' | h''
          · exact h h''.symm
          · exact hm h''

/-- Where a group of the updated table comes from. -/
theorem addItem_mem (e : SItem) (g' : Group) :
    ∀ gs : List Group, (gs.map Group.id).Nodup → g' ∈ addItem gs e →
      (g' ∈ gs ∧ g'.id ≠ clusterKey e) ∨
      (∃ g ∈ gs, g.id = clusterKey e ∧ g' = updateGroup g e) ∨
      (clusterKey e ∉ gs.map Group.id ∧ g' = updateGroup (newGroup e) e) := by
  intro gs
  induction gs with
  | nil =>
    intro _ hg
    simp only [addItem, List.mem_singleton] at hg
    exact Or.inr (Or.inr ⟨by simp, hg⟩)
  | cons g gs ih =>
    intro hnd hg
    simp only [List.map_cons, List.nodup_cons] at hnd
    by_cases h : g.id = clusterKey e
    · simp only [addItem, if_pos h] at hg
      rcases List.mem_cons.mp hg with rfl | hg'
      · exact Or.inr (Or.inl ⟨g, List.mem_cons_self _ _, h, rfl⟩)
      · refine Or.inl ⟨List.mem_cons_of_mem _ hg', ?_⟩
        intro hk
        apply hnd.1
        rw [h, ← hk]
        exact List.mem_map_of_mem _ hg'
    · simp only [addItem, if_neg h] at hg
      rcases List.mem_cons.mp hg with rfl | hg'
      · exact Or.inl ⟨List.mem_cons_self _ _, fun hk => h hk⟩
      · rcases ih hnd.2 hg' with ⟨hmem, hne⟩ | ⟨g2, hg2, hk2, rfl⟩ | ⟨hnm, rfl⟩
        · exact Or.inl ⟨List.mem_cons_of_mem _ hmem, hne⟩
        · exact Or.inr (Or.inl ⟨g2, List.mem_cons_of_mem _ hg2, hk2, rfl⟩)
        · refine Or.inr (Or.inr ⟨?_, rfl⟩)
          intro hk
          rcases List.mem_cons.mp hk with h'' | h''
          · exact h h''.symm
          · exact hnm h''

/-- `filterMap` of a singleton. -/
theorem filterMap_singleton {α β : Type} (f : α → Option β) (e : α) :
    List.filterMap f [e] = (f e).toList := by
  cases h : f e <;> simp [List.filterMap, h]

/-- `filter` of a singleton. -/
theorem filter_singleton {α : Type} (p : α → Bool) (e : α) :
    List.filter p [e] = if p e = true then [e] else [] := by
  rw [List.filter_cons, List.filter_nil]

/-- Processing one item preserves the accumulator invariant. -/
theorem groupInv_addItem (processed : List SItem) (gs : List Group) (e : SItem)
    (h : GroupInv processed gs) : GroupInv (processed ++ [e]) (addItem gs e) := by
  obtain ⟨hnd, hg, hcov⟩ := h
  refine ⟨?_, ?_, ?_⟩
  · rw [addItem_ids]
    by_cases hm : clusterKey e ∈ gs.map Group.id
    · rwa [if_pos hm]
    · rw [if_neg hm]
      simp [List.nodup_append, hnd, hm]
  · intro g' hg'
    rcases addItem_mem e g' gs hnd hg' with ⟨hmem, hne⟩ | ⟨g2, hg2, hk2, rfl⟩ |
      ⟨hnm, rfl⟩
    · obtain ⟨hitems, hne', htot, hq⟩ := hg g' hmem
      refine ⟨?_, hne', htot, hq⟩
      have h0 : List.filter (fun x => decide (clusterKey x = g'.id)) [e] = [] := by
        rw [filter_singleton,
          if_neg (by simp only [decide_eq_true_eq]; exact fun hh => hne hh.symm)]
      rw [List.filter_append, h0, List.append_nil]
      exact hitems
    · obtain ⟨hitems, hne', htot, hq⟩ := hg g2 hg2
      refine ⟨?_, by simp [updateGroup], ?_, ?_⟩
      · show g2.items ++ [e] =
          (processed ++ [e]).filter fun x => clusterKey x = (updateGroup g2 e).id
        rw [updateGroup_id, List.filter_append, ← hitems]
        congr 1
        rw [filter_singleton,
          if_pos (by simp only [decide_eq_true_eq]; exact hk2.symm)]
      · show g2.totalScore + iscore e = ((g2.items ++ [e]).map iscore).sum
        rw [List.map_append, List.sum_append, htot]
        simp
      · show g2.quotes ++ (quoteOf e).toList = (g2.items ++ [e]).filterMap quoteOf
        rw [List.filterMap_append, hq, filterMap_singleton]
    · have hid : (updateGroup (newGroup e) e).id = clusterKey e := rfl
      have hfempty :
          List.filter (fun x => decide (clusterKey x = clusterKey e)) processed =
            [] := by
        rw [List.filter_eq_nil_iff]
        intro x hx
        simp only [decide_eq_true_eq]
        intro hxx
        apply hnm
        rw [← hxx]
        exact hcov x hx
      refine ⟨?_, by simp [updateGroup, newGroup], ?_, ?_⟩
      · show (newGroup e).items ++ [e] =
          (processed ++ [e]).filter fun x => clusterKey x = (updateGroup (newGroup e) e).id
        rw [hid, List.filter_append, hfempty, List.nil_append]
        show [e] = List.filter (fun x => decide (clusterKey x = clusterKey e)) [e]
        rw [filter_singleton, if_pos (by simp)]
      · show (newGroup e).totalScore + iscore e = (([e] : List SItem).map iscore).sum
        simp [newGroup]
      · show (newGroup e).quotes ++ (quoteOf e).toList =
          ([e] : List SItem).filterMap quoteOf
        rw [filterMap_singleton]
        simp [newGroup]
  · intro x hx
    rw [addItem_ids]
    rcases List.mem_append.mp hx with hx | hx
    · have hin := hcov x hx
      by_cases hm : clusterKey e ∈ gs.map Group.id
      · rwa [if_pos hm]
      · rw [if_neg hm]
        exact List.mem_append_left _ hin
    · have hxe : x = e := List.mem_singleton.mp hx
      rw [hxe]
      by_cases hm : clusterKey e ∈ gs.map Group.id
      · rwa [if_pos hm]
      · rw [if_neg hm]
        exact List.mem_append_right _ (List.mem_singleton_self _)

/-- Folding the loop body over any suffix preserves the invariant. -/
theorem groupInv_foldl (l : List SItem) :
    ∀ (processed : List SItem) (gs : List Group), GroupInv processed gs →
      GroupInv (processed ++ l) (l.foldl addItem gs) := by
  induction l with
  | nil =>
    intro processed gs h
    simpa using h
  | cons e l ih =>
    intro processed gs h
    rw [List.foldl_cons]
    have := ih (processed ++ [e]) (addItem gs e) (groupInv_addItem _ _ _ h)
    rwa [List.append_assoc, List.singleton_append] at this

/-- The invariant holds for the fully built accumulator table. -/
theorem groupInv_main (items : List SItem) :
    GroupInv items (items.foldl addItem []) := by
  have h0 : GroupInv [] [] := ⟨by simp, by simp, by simp⟩
  have := groupInv_foldl items [] [] h0
  simpa using this

/--
C10: every produced focus area holds exactly the input items carrying its
key (so two items with identical mapped category and feature area always land
in the same, unique area); `frequency` is the member count, `avgImpact` the
mean of the members' impact scores, `topQuote` the first collected non-empty
quote, and `stakes` and `scoreRationale` are copied (with the JS falsy
fallback) from the first item appended to the group; the result is sorted
descending by `avgImpact`.
-/
theorem cluster_focus_areas (items : List SItem) :
    (∀ a ∈ clusterIntoFocusAreas items,
      a.items = items.filter (fun e => clusterKey e = a.id) ∧
      a.items ≠ [] ∧
      a.frequency = a.items.length ∧
      a.avgImpact = (a.items.map iscore).sum / (a.items.length : ℚ) ∧
      a.topQuote = jsOrS (a.items.filterMap quoteOf).head? "" ∧
      a.stakes =
        ((a.items.head?.bind SItem.impactData).map ImpactData.stakes).getD
          { stype := "neutral", message := "" } ∧
      a.scoreRationale =
        jsOrS ((a.items.head?.bind SItem.impactData).map ImpactData.rationale)
          "") ∧
    (∀ e ∈ items, ∃ a ∈ clusterIntoFocusAreas items,
      a.id = clusterKey e ∧ e ∈ a.items) ∧
    (∀ a ∈ clusterIntoFocusAreas items, ∀ b ∈ clusterIntoFocusAreas items,
      ∀ e1 ∈ a.items, ∀ e2 ∈ b.items, clusterKey e1 = clusterKey e2 → a = b) ∧
    List.Sorted avgDesc (clusterIntoFocusAreas items) := by
  obtain ⟨hnd, hg, hcov⟩ := groupInv_main items
  have hmem : ∀ a : Area, a ∈ clusterIntoFocusAreas items ↔
      a ∈ (items.foldl addItem []).map aggregate := by
    intro a
    unfold clusterIntoFocusAreas
    exact List.mem_insertionSort _
  have area_props : ∀ a ∈ clusterIntoFocusAreas items,
      a.items = items.filter (fun e => clusterKey e = a.id) ∧
      a.items ≠ [] ∧
      a.frequency = a.items.length ∧
      a.avgImpact = (a.items.map iscore).sum / (a.items.length : ℚ) ∧
      a.topQuote = jsOrS (a.items.filterMap quoteOf).head? "" ∧
      a.stakes =
        ((a.items.head?.bind SItem.impactData).map ImpactData.stakes).getD
          { stype := "neutral", message := "" } ∧
      a.scoreRationale =
        jsOrS ((a.items.head?.bind SItem.impactData).map ImpactData.rationale)
          "" := by
    intro a ha
    rw [hmem] at ha
    obtain ⟨g, hgmem, rfl⟩ := List.mem_map.mp ha
    obtain ⟨hitems, hne, htot, hq⟩ := hg g hgmem
    refine ⟨hitems, hne, rfl, ?_, ?_, rfl, rfl⟩
    · show (if g.items.length > 0 then g.totalScore / g.items.length else 0) = _
      rw [if_pos (List.length_pos.mpr hne), htot]
      rfl
    · show jsOrS g.quotes.head? "" = _
      rw [hq]
      rfl
  refine ⟨area_props, ?_, ?_, ?_⟩
  · intro e he
    have hk := hcov e he
    obtain ⟨g, hgmem, hid⟩ := List.mem_map.mp hk
    refine ⟨aggregate g, (hmem _).mpr (List.mem_map_of_mem _ hgmem), hid, ?_⟩
    obtain ⟨hitems, -, -, -⟩ := hg g hgmem
    show e ∈ g.items
    rw [hitems]
    exact List.mem_filter.mpr ⟨he, by simp [hid]⟩
  · intro a ha b hb e1 he1 e2 he2 hkey
    obtain ⟨haitems, -, -, -, -, -, -⟩ := area_props a ha
    obtain ⟨hbitems, -, -, -, -, -, -⟩ := area_props b hb
    have hk1 : clusterKey e1 = a.id := by
      have h1 : e1 ∈ items.filter (fun e => clusterKey e = a.id) := haitems ▸ he1
      simpa using (List.mem_filter.mp h1).2
    have hk2 : clusterKey e2 = b.id := by
      have h2 : e2 ∈ items.filter (fun e => clusterKey e = b.id) := hbitems ▸ he2
      simpa using (List.mem_filter.mp h2).2
    have hid : a.id = b.id := by rw [← hk1, hkey, hk2]
    have hndres : ((clusterIntoFocusAreas items).map Area.id).Nodup := by
      have hperm : (clusterIntoFocusAreas items).Perm
          ((items.foldl addItem []).map aggregate) :=
        List.perm_insertionSort _ _
      rw [(hperm.map Area.id).nodup_iff, List.map_map]
      have hcomp : Area.id ∘ aggregate = Group.id := rfl
      rw [hcomp]
      exact hnd
    exact List.inj_on_of_nodup_map hndres ha hb hid
  · exact List.sorted_insertionSort avgDesc _

/-- C10 witness: the cluster built from the single noise item. -/
theorem cluster_focus_areas_witness :
    clusterWitnessArea.items =
      [wNoise].filter (fun e => clusterKey e = clusterWitnessArea.id) ∧
    clusterWitnessArea.items ≠ [] ∧
    clusterWitnessArea.frequency = clusterWitnessArea.items.length ∧
    clusterWitnessArea.avgImpact =
      (clusterWitnessArea.items.map iscore).sum /
        (clusterWitnessArea.items.length : ℚ) ∧
    clusterWitnessArea.topQuote =
      jsOrS (clusterWitnessArea.items.filterMap quoteOf).head? "" ∧
    clusterWitnessArea.stakes =
      ((clusterWitnessArea.items.head?.bind SItem.impactData).map
        ImpactData.stakes).getD { stype := "neutral", message := "" } ∧
    clusterWitnessArea.scoreRationale =
      jsOrS ((clusterWitnessArea.items.head?.bind SItem.impactData).map
        ImpactData.rationale) "" :=
  (cluster_focus_areas [wNoise]).1 clusterWitnessArea (by decide)

/-- C7 witness: the section-8 Sync comparison at the key of the Sync area. -/
theorem comparison_buckets_witness :
    countKey (buildChanges syncCur.focusAreas syncPrev.focusAreas).newIssues
        "bug:Sync" +
      countKey (buildChanges syncCur.focusAreas syncPrev.focusAreas).improvedIssues
        "bug:Sync" +
      countKey (buildChanges syncCur.focusAreas syncPrev.focusAreas).worsenedIssues
        "bug:Sync" +
      countKey (buildChanges syncCur.focusAreas syncPrev.focusAreas).stableIssues
        "bug:Sync" +
      countKey (buildChanges syncCur.focusAreas syncPrev.focusAreas).resolvedIssues
        "bug:Sync" =
      if "bug:Sync" ∈ syncCur.focusAreas.map keyStr ∨
          "bug:Sync" ∈ syncPrev.focusAreas.map keyStr then 1
      else 0 :=
  comparison_buckets "t" syncCur syncPrev
    (buildChanges syncCur.focusAreas syncPrev.focusAreas) (by decide) "bug:Sync"

end

end Pulse
